import Mathlib

/-!
Shallow embedding of the thread-identifier / status / stack-introspection
layer of the rust-riot-wrappers repository (src/src/thread.rs,
src/src/thread/riot_c.rs, src/src/thread/riot_rs.rs) and of the stdio
writer (src/src/stdio.rs).

Machine integers (`kernel_pid_t`, the raw status `i32`) are modelled as
`Int`; the operations involved only compare and copy them, so no overflow
arithmetic occurs.  Kernel-provided primitives (C functions of riot_sys
resp. riot_rs_core) are modelled parametrically as fields of an
environment structure; where the spec pins their contract down (the
pid-validity range check) the contract is taken from the spec's kernel
backend contract.
-/

/-- Source item `NoSuchThread` (thread.rs): error returned by PID methods when no
thread with that PID exists. -/
inductive NoSuchThread where
  | NoSuchThread
deriving DecidableEq, Repr

/-- Source item `StackStats` (thread/stack_stats.rs, re-exported by thread.rs). -/
structure StackStats where
  start : Int
  size : Nat
  free : Nat
deriving DecidableEq, Repr

/-- Source item `StackStatsError` (thread/stack_stats.rs): distinguishes the missing
thread from the missing build-time capability. -/
inductive StackStatsError where
  | NoSuchThread
  | InformationUnavailable
deriving DecidableEq, Repr

namespace RiotC

/-- The backend-defined valid identifier range.  Modelled from the spec's
kernel backend contract: the backend provides a first/last bound for the
valid identifier range (`KERNEL_PID_FIRST` / `KERNEL_PID_LAST`). -/
structure PidRange where
  first : Int
  last : Int
deriving DecidableEq, Repr

/-- Modelled from the spec: the riot_sys C primitive `pid_is_valid`, which
the spec's kernel backend contract fixes as the range check
`PID_FIRST <= pid <= PID_LAST`. -/
def pid_is_valid (env : PidRange) (pid : Int) : Bool :=
  decide (env.first ≤ pid) && decide (pid ≤ env.last)

/-- Source item `KernelPID` of riot_c.rs: a wrapper around a raw `kernel_pid_t`. -/
structure KernelPID where
  pid : Int
deriving DecidableEq, Repr

/-- Source item `KernelPID::new` (riot_c.rs): `Some(KernelPID(pid))` when
`pid_is_valid(pid) != 0`, `None` otherwise. -/
def KernelPID.new (env : PidRange) (pid : Int) : Option KernelPID :=
  if pid_is_valid env pid then some (KernelPID.mk pid) else none

/-- The list of raw values of the iterator
`KERNEL_PID_FIRST..=KERNEL_PID_LAST` of `all_pids` (riot_c.rs). -/
def pidRangeList (env : PidRange) : List Int :=
  (List.range (env.last + 1 - env.first).toNat).map
    (fun i : Nat => env.first + (i : Int))

/-- Source item `KernelPID::all_pids` (riot_c.rs): maps `KernelPID::new` over the raw
range `KERNEL_PID_FIRST..=KERNEL_PID_LAST`.  The source unwraps each
result with `.expect(...)`; the embedding uses `filterMap`, and the fact
that `new` succeeds on every element of the range (so that the `expect`
never fires and `filterMap` coincides with the source's `map`) is proved
below. -/
def KernelPID.all_pids (env : PidRange) : List KernelPID :=
  (pidRangeList env).filterMap (KernelPID.new env)

/-- Source item `Status` (riot_c.rs): the closed projection of the raw kernel status
code, with the `Other` escape variant. -/
inductive Status where
  | Stopped
  | Sleeping
  | MutexBlocked
  | ReceiveBlocked
  | SendBlocked
  | ReplyBlocked
  | FlagBlockedAny
  | FlagBlockedAll
  | MboxBlocked
  | Running
  | Pending
  | Other
deriving DecidableEq, Repr

/-- The `status_converted` module of riot_c.rs: the backend's raw status
constants (values supplied by riot_sys, hence parameters here), plus the
reserved not-found sentinel. -/
structure StatusCodes where
  not_found : Int
  stopped : Int
  sleeping : Int
  mutex_blocked : Int
  receive_blocked : Int
  send_blocked : Int
  reply_blocked : Int
  flag_blocked_any : Int
  flag_blocked_all : Int
  mbox_blocked : Int
  running : Int
  pending : Int
deriving DecidableEq, Repr

/-- All twelve raw constants of `status_converted`, sentinel first. -/
def StatusCodes.all (c : StatusCodes) : List Int :=
  [c.not_found, c.stopped, c.sleeping, c.mutex_blocked, c.receive_blocked,
   c.send_blocked, c.reply_blocked, c.flag_blocked_any, c.flag_blocked_all,
   c.mbox_blocked, c.running, c.pending]

/-- The eleven recognized (non-sentinel) raw constants. -/
def StatusCodes.recognized (c : StatusCodes) : List Int :=
  [c.stopped, c.sleeping, c.mutex_blocked, c.receive_blocked,
   c.send_blocked, c.reply_blocked, c.flag_blocked_any, c.flag_blocked_all,
   c.mbox_blocked, c.running, c.pending]

/-- The backend constants are pairwise distinct (true of the real
`thread_status_t` enum together with the cast `-1` sentinel). -/
def StatusCodes.distinct (c : StatusCodes) : Prop :=
  c.all.Nodup

instance (c : StatusCodes) : Decidable c.distinct := by
  unfold StatusCodes.distinct
  infer_instance

/-- Source item `Status::from_int` (riot_c.rs): the `match` over the converted
constants, in source order, falling through to `Other`. -/
def Status.from_int (c : StatusCodes) (status : Int) : Status :=
  if status = c.stopped then Status.Stopped
  else if status = c.sleeping then Status.Sleeping
  else if status = c.mutex_blocked then Status.MutexBlocked
  else if status = c.receive_blocked then Status.ReceiveBlocked
  else if status = c.send_blocked then Status.SendBlocked
  else if status = c.reply_blocked then Status.ReplyBlocked
  else if status = c.flag_blocked_any then Status.FlagBlockedAny
  else if status = c.flag_blocked_all then Status.FlagBlockedAll
  else if status = c.mbox_blocked then Status.MboxBlocked
  else if status = c.running then Status.Running
  else if status = c.pending then Status.Pending
  else Status.Other

/-- The `thread_t` fields that riot_c.rs reads (priority, stack bounds). -/
structure ThreadData where
  priority : Nat
  stack_start : Int
  stack_size : Nat
deriving DecidableEq, Repr

/-- The kernel-side primitives riot_c.rs calls, modelled parametrically:
`thread_getstatus`, `thread_wakeup`, `thread_get_unchecked` (with `none`
standing for the null pointer), `thread_measure_stack_free` and
`thread_getpid`. -/
structure Kernel where
  thread_getstatus : Int → Int
  thread_wakeup : Int → Int
  thread_get_unchecked : Int → Option ThreadData
  thread_measure_stack_free : Int → Nat
  thread_getpid : Int

/-- Source item `KernelPID::status` (riot_c.rs): read the raw status, fail with
`NoSuchThread` on the sentinel, otherwise decode via `Status::from_int`. -/
def KernelPID.status (c : StatusCodes) (k : Kernel) (p : KernelPID) :
    Except NoSuchThread Status :=
  let status := k.thread_getstatus p.pid
  if status = c.not_found then Except.error NoSuchThread.NoSuchThread
  else Except.ok (Status.from_int c status)

/-- Source item `KernelPID::wakeup` (riot_c.rs): the `match` on the raw result of
`thread_wakeup`, `Ok(())` exactly on raw result `1`. -/
def KernelPID.wakeup (k : Kernel) (p : KernelPID) : Except NoSuchThread Unit :=
  let success := k.thread_wakeup p.pid
  if success = 1 then Except.ok ()
  else Except.error NoSuchThread.NoSuchThread

/-- Source item `KernelPID::thread` (riot_c.rs): `thread_get_unchecked` plus the null
check. -/
def KernelPID.thread (k : Kernel) (p : KernelPID) :
    Except NoSuchThread ThreadData :=
  match k.thread_get_unchecked p.pid with
  | none => Except.error NoSuchThread.NoSuchThread
  | some t => Except.ok t

/-- Source item `KernelPID::priority` (riot_c.rs). -/
def KernelPID.priority (k : Kernel) (p : KernelPID) :
    Except NoSuchThread Nat :=
  match KernelPID.thread k p with
  | Except.error e => Except.error e
  | Except.ok t => Except.ok t.priority

/-- Source item `KernelPID::stack_stats` (riot_c.rs): first `self.thread()?` (the
`?` converts `NoSuchThread` into `StackStatsError::NoSuchThread`), then
the `cfg(riot_develhelp)` gate, modelled as the boolean `develhelp`. -/
def KernelPID.stack_stats (develhelp : Bool) (k : Kernel) (p : KernelPID) :
    Except StackStatsError StackStats :=
  match KernelPID.thread k p with
  | Except.error _ => Except.error StackStatsError.NoSuchThread
  | Except.ok t =>
      if develhelp then
        Except.ok (StackStats.mk t.stack_start t.stack_size
          (k.thread_measure_stack_free t.stack_start))
      else
        Except.error StackStatsError.InformationUnavailable

/-- Source item `get_pid` (riot_c.rs): wraps `thread_getpid()` directly in the
`KernelPID` constructor. -/
def get_pid (k : Kernel) : KernelPID :=
  KernelPID.mk k.thread_getpid

end RiotC

namespace RiotRs

/-- The riot-rs-core primitives riot_rs.rs calls, modelled parametrically:
`Thread::pid_is_valid`, `thread_get_status` composed with `Thread::get`,
the stack accessors, `thread_measure_stack_free`, `Thread::current_pid`
and the constant `THREADS_NUMOF`. -/
structure RsKernel where
  pid_is_valid : Int → Bool
  get_status : Int → Int
  stack_bottom : Int → Int
  stack_size : Int → Nat
  thread_measure_stack_free : Int → Nat
  current_pid : Int
  THREADS_NUMOF : Nat

/-- Source item `KernelPID` of riot_rs.rs: a wrapper around a raw `Pid`. -/
structure KernelPID where
  pid : Int
deriving DecidableEq, Repr

/-- Source item `KernelPID::new` (riot_rs.rs): gated on `Thread::pid_is_valid`. -/
def KernelPID.new (k : RsKernel) (pid : Int) : Option KernelPID :=
  if k.pid_is_valid pid then some (KernelPID.mk pid) else none

/-- Source item `KernelPID::status` (riot_rs.rs): the status here is the raw
`thread_status_t` re-exported from riot_sys (an integer, not the riot_c
`Status` enum), and the error type is the unit type `()`. -/
def KernelPID.status (k : RsKernel) (p : KernelPID) : Except Unit Int :=
  if k.pid_is_valid p.pid then Except.ok (k.get_status p.pid)
  else Except.error ()

/-- Source item `KernelPID::thread` (riot_rs.rs): `Some(Thread::get(pid))` when the
pid is valid; the thread handle is modelled by its pid. -/
def KernelPID.thread (k : RsKernel) (p : KernelPID) : Option Int :=
  if k.pid_is_valid p.pid then some p.pid else none

/-- Source item `KernelPID::stack_stats` (riot_rs.rs): `thread().ok_or(NoSuchThread)?`
and then always `Ok` — there is no develhelp gate in this backend (the
`InformationUnavailable` branch is commented out in the source). -/
def KernelPID.stack_stats (k : RsKernel) (p : KernelPID) :
    Except StackStatsError StackStats :=
  match KernelPID.thread k p with
  | none => Except.error StackStatsError.NoSuchThread
  | some t =>
      Except.ok (StackStats.mk (k.stack_bottom t) (k.stack_size t)
        (k.thread_measure_stack_free (k.stack_bottom t)))

/-- Source item `KernelPID::all_pids` (riot_rs.rs): maps `KernelPID::new` over
`0..THREADS_NUMOF`, with the same `.expect(...)` as riot_c (embedded as
`filterMap`, see riot_c's `all_pids`). -/
def KernelPID.all_pids (k : RsKernel) : List KernelPID :=
  (List.range k.THREADS_NUMOF).filterMap (fun i => KernelPID.new k (Int.ofNat i))

/-- Source item `get_pid` (riot_rs.rs): wraps `Thread::current_pid()` directly. -/
def get_pid (k : RsKernel) : KernelPID :=
  KernelPID.mk k.current_pid

end RiotRs

namespace Stdio

/-- Source item `Stdio::write_str` (stdio.rs), with the `stdio_write` primitive passed
in as `w` (its integer return value) and the byte strings the primitive
was invoked on returned alongside the result: the empty check returns
`Ok(())` before any call to `stdio_write`; otherwise `stdio_write` is
called once on the whole byte string and the result is `Ok` exactly when
its return value is non-negative. -/
def write_str (w : List UInt8 → Int) (s : List UInt8) :
    (Except Unit Unit) × List (List UInt8) :=
  if s.length = 0 then (Except.ok (), [])
  else
    let result := w s
    (if 0 ≤ result then Except.ok () else Except.error (), [s])

end Stdio

/-- A concrete status-code table for witnesses: the sentinel `-1` (the
cast `(thread_status_t)-1` of the C source) and eleven distinct
recognized codes `0..10`, with `9` playing `STATUS_RUNNING`. -/
def c₀ : RiotC.StatusCodes :=
  ⟨-1, 0, 1, 2, 3, 4, 5, 6, 7, 8, 9, 10⟩

/-- Concrete thread data for witnesses. -/
def t₀ : RiotC.ThreadData :=
  ⟨5, 100, 256⟩

/-- A concrete riot_c kernel for witnesses: pids 1..3 denote live
threads, pid 2 is sleeping (status code 1), pid 3 reports the
unrecognized status code 99, the current thread is pid 2, and
`thread_wakeup` succeeds exactly on the live pids. -/
def k₀ : RiotC.Kernel where
  thread_getstatus := fun q =>
    if q = 2 then 1
    else if q = 3 then 99
    else if q = 1 then 9
    else -1
  thread_wakeup := fun q => if 1 ≤ q ∧ q ≤ 3 then 1 else -1
  thread_get_unchecked := fun q => if 1 ≤ q ∧ q ≤ 3 then some t₀ else none
  thread_measure_stack_free := fun _ => 128
  thread_getpid := 2

/-- The set of live pids of the `k₀` fixture. -/
def live₀ (q : Int) : Bool :=
  decide (1 ≤ q) && decide (q ≤ 3)

/-- The set of sleeping pids of the `k₀` fixture. -/
def sleeping₀ (q : Int) : Bool :=
  decide (q = 2)

/-- A concrete riot-rs kernel for witnesses: pids 0..3 are valid, the
current thread is pid 2, every status query reports code 9, and the
stack accessors agree with the `t₀` fixture. -/
def rk₀ : RiotRs.RsKernel where
  pid_is_valid := fun q => decide (0 ≤ q) && decide (q < 4)
  get_status := fun _ => 9
  stack_bottom := fun _ => 100
  stack_size := fun _ => 256
  thread_measure_stack_free := fun _ => 128
  current_pid := 2
  THREADS_NUMOF := 4

namespace RiotC

theorem pid_is_valid_iff (env : PidRange) (r : Int) :
    pid_is_valid env r = true ↔ env.first ≤ r ∧ r ≤ env.last := by
  simp [pid_is_valid]

theorem new_eq_some_iff (env : PidRange) (r : Int) :
    KernelPID.new env r = some (KernelPID.mk r) ↔ pid_is_valid env r = true := by
  unfold KernelPID.new
  split <;> simp_all

theorem new_eq_none_iff (env : PidRange) (r : Int) :
    KernelPID.new env r = none ↔ pid_is_valid env r = false := by
  unfold KernelPID.new
  split <;> simp_all

theorem new_isSome (env : PidRange) (r : Int) :
    (KernelPID.new env r).isSome = pid_is_valid env r := by
  unfold KernelPID.new
  split <;> simp_all

theorem mem_pidRangeList (env : PidRange) (i : Int) :
    i ∈ pidRangeList env ↔ env.first ≤ i ∧ i ≤ env.last := by
  unfold pidRangeList
  simp only [List.mem_map, List.mem_range]
  constructor
  · rintro ⟨a, ha, rfl⟩
    omega
  · rintro ⟨h1, h2⟩
    exact ⟨(i - env.first).toNat, by omega, by omega⟩

theorem filterMap_new_eq_map (env : PidRange) (l : List Int)
    (hl : ∀ i ∈ l, pid_is_valid env i = true) :
    l.filterMap (KernelPID.new env) = l.map KernelPID.mk := by
  induction l with
  | nil => rfl
  | cons a l ih =>
      have ha : pid_is_valid env a = true := hl a (by simp)
      have hrest : ∀ i ∈ l, pid_is_valid env i = true :=
        fun i hi => hl i (by simp [hi])
      simp [List.filterMap_cons, KernelPID.new, ha, ih hrest]

theorem all_pids_eq_map (env : PidRange) :
    KernelPID.all_pids env = (pidRangeList env).map KernelPID.mk := by
  unfold KernelPID.all_pids
  exact filterMap_new_eq_map env _ (fun i hi =>
    (pid_is_valid_iff env i).mpr ((mem_pidRangeList env i).mp hi))

theorem mem_all_pids (env : PidRange) (q : KernelPID) :
    q ∈ KernelPID.all_pids env ↔ env.first ≤ q.pid ∧ q.pid ≤ env.last := by
  rw [all_pids_eq_map]
  simp only [List.mem_map]
  constructor
  · rintro ⟨i, hi, rfl⟩
    exact (mem_pidRangeList env i).mp hi
  · intro hq
    exact ⟨q.pid, (mem_pidRangeList env q.pid).mpr hq, rfl⟩

theorem all_pids_pairwise (env : PidRange) :
    (KernelPID.all_pids env).Pairwise (fun a b => a.pid < b.pid) := by
  rw [all_pids_eq_map]
  unfold pidRangeList
  rw [List.map_map, List.pairwise_map]
  exact (List.pairwise_lt_range _).imp (by intro a b h; simpa using h)

theorem all_pids_nodup (env : PidRange) :
    (KernelPID.all_pids env).Nodup :=
  (all_pids_pairwise env).imp (fun h heq => by simp [heq] at h)

end RiotC

/-- C1: for every raw integer `r`, `KernelPID::new(r)` returns `Some`
(wrapping `r` itself) iff `r` lies within the backend's valid identifier
range `[PID_FIRST, PID_LAST]`, equivalently iff the backend's
`pid_is_valid` predicate holds for `r`, and returns `None` otherwise; in
particular with `PID_FIRST = 1, PID_LAST = 4`: `new 0 = None`,
`new 5 = None`, `new 2 = Some (KernelPID 2)`. -/
theorem C1_new_iff_valid_range (env : RiotC.PidRange) (r : Int) :
    (RiotC.KernelPID.new env r = some (RiotC.KernelPID.mk r)
        ↔ (env.first ≤ r ∧ r ≤ env.last))
    ∧ (RiotC.KernelPID.new env r = some (RiotC.KernelPID.mk r)
        ↔ RiotC.pid_is_valid env r = true)
    ∧ (RiotC.KernelPID.new env r = none ↔ RiotC.pid_is_valid env r = false)
    ∧ RiotC.KernelPID.new ⟨1, 4⟩ 0 = none
    ∧ RiotC.KernelPID.new ⟨1, 4⟩ 5 = none
    ∧ RiotC.KernelPID.new ⟨1, 4⟩ 2 = some (RiotC.KernelPID.mk 2) := by
  refine ⟨?_, ?_, ?_, by decide, by decide, by decide⟩
  · rw [RiotC.new_eq_some_iff, RiotC.pid_is_valid_iff]
  · exact RiotC.new_eq_some_iff env r
  · exact RiotC.new_eq_none_iff env r

/-- C3: `all_pids` yields exactly the identifiers of the valid range
`[PID_FIRST, PID_LAST]`, in ascending order, with no duplicates and none
missing; the validating constructor `new` succeeds on every raw value of
the iterated range (so the source's `.expect` never fires and the
iterator is exactly the mapped range); and with `PID_FIRST = 1,
PID_LAST = 4` the sequence is exactly `[1, 2, 3, 4]`. -/
theorem C3_all_pids_exactly_valid_range (env : RiotC.PidRange) :
    ((RiotC.pidRangeList env).all
        (fun i => (RiotC.KernelPID.new env i).isSome) = true)
    ∧ RiotC.KernelPID.all_pids env
        = (RiotC.pidRangeList env).map RiotC.KernelPID.mk
    ∧ (∀ q : RiotC.KernelPID, q ∈ RiotC.KernelPID.all_pids env
        ↔ (env.first ≤ q.pid ∧ q.pid ≤ env.last))
    ∧ (RiotC.KernelPID.all_pids env).Pairwise (fun a b => a.pid < b.pid)
    ∧ (RiotC.KernelPID.all_pids env).Nodup
    ∧ RiotC.KernelPID.all_pids ⟨1, 4⟩
        = [RiotC.KernelPID.mk 1, RiotC.KernelPID.mk 2,
           RiotC.KernelPID.mk 3, RiotC.KernelPID.mk 4] := by
  refine ⟨?_, RiotC.all_pids_eq_map env, RiotC.mem_all_pids env,
    RiotC.all_pids_pairwise env, RiotC.all_pids_nodup env, by decide⟩
  rw [List.all_eq_true]
  intro i hi
  rw [RiotC.new_isSome]
  exact (RiotC.pid_is_valid_iff env i).mpr ((RiotC.mem_pidRangeList env i).mp hi)

/-- C2: `status` returns `Err(NoSuchThread)` iff the backend's raw status
equals the reserved not-found sentinel; every other raw code decodes via
`Status::from_int`, with (given the backend's pairwise-distinct status
constants) each of the eleven recognized codes mapping to its named
variant and every unrecognized non-sentinel code mapping to `Other`,
never to an error. -/
theorem C2_status_sentinel_and_decode (c : RiotC.StatusCodes)
    (k : RiotC.Kernel) (p : RiotC.KernelPID) (h : c.distinct) :
    (RiotC.KernelPID.status c k p = Except.error NoSuchThread.NoSuchThread
        ↔ k.thread_getstatus p.pid = c.not_found)
    ∧ (k.thread_getstatus p.pid ≠ c.not_found →
        RiotC.KernelPID.status c k p
          = Except.ok (RiotC.Status.from_int c (k.thread_getstatus p.pid)))
    ∧ RiotC.Status.from_int c c.stopped = RiotC.Status.Stopped
    ∧ RiotC.Status.from_int c c.sleeping = RiotC.Status.Sleeping
    ∧ RiotC.Status.from_int c c.mutex_blocked = RiotC.Status.MutexBlocked
    ∧ RiotC.Status.from_int c c.receive_blocked = RiotC.Status.ReceiveBlocked
    ∧ RiotC.Status.from_int c c.send_blocked = RiotC.Status.SendBlocked
    ∧ RiotC.Status.from_int c c.reply_blocked = RiotC.Status.ReplyBlocked
    ∧ RiotC.Status.from_int c c.flag_blocked_any = RiotC.Status.FlagBlockedAny
    ∧ RiotC.Status.from_int c c.flag_blocked_all = RiotC.Status.FlagBlockedAll
    ∧ RiotC.Status.from_int c c.mbox_blocked = RiotC.Status.MboxBlocked
    ∧ RiotC.Status.from_int c c.running = RiotC.Status.Running
    ∧ RiotC.Status.from_int c c.pending = RiotC.Status.Pending
    ∧ (∀ s : Int, s ∉ c.recognized →
        RiotC.Status.from_int c s = RiotC.Status.Other) := by
  have hd := h
  simp only [RiotC.StatusCodes.distinct, RiotC.StatusCodes.all,
    List.nodup_cons, List.mem_cons, List.not_mem_nil, or_false, not_or,
    List.nodup_nil, and_true] at hd
  obtain ⟨⟨h01, h02, h03, h04, h05, h06, h07, h08, h09, h0A, h0B⟩,
    ⟨h12, h13, h14, h15, h16, h17, h18, h19, h1A, h1B⟩,
    ⟨h23, h24, h25, h26, h27, h28, h29, h2A, h2B⟩,
    ⟨h34, h35, h36, h37, h38, h39, h3A, h3B⟩,
    ⟨h45, h46, h47, h48, h49, h4A, h4B⟩,
    ⟨h56, h57, h58, h59, h5A, h5B⟩,
    ⟨h67, h68, h69, h6A, h6B⟩,
    ⟨h78, h79, h7A, h7B⟩,
    ⟨h89, h8A, h8B⟩,
    ⟨h9A, h9B⟩,
    ⟨hAB, -⟩⟩ := hd
  refine ⟨?_, ?_, ?_, ?_, ?_, ?_, ?_, ?_, ?_, ?_, ?_, ?_, ?_, ?_⟩
  · by_cases hs : k.thread_getstatus p.pid = c.not_found <;>
      simp [RiotC.KernelPID.status, hs]
  · intro hne
    simp [RiotC.KernelPID.status, hne]
  · simp [RiotC.Status.from_int]
  · simp [RiotC.Status.from_int, Ne.symm h12]
  · simp [RiotC.Status.from_int, Ne.symm h13, Ne.symm h23]
  · simp [RiotC.Status.from_int, Ne.symm h14, Ne.symm h24, Ne.symm h34]
  · simp [RiotC.Status.from_int, Ne.symm h15, Ne.symm h25, Ne.symm h35,
      Ne.symm h45]
  · simp [RiotC.Status.from_int, Ne.symm h16, Ne.symm h26, Ne.symm h36,
      Ne.symm h46, Ne.symm h56]
  · simp [RiotC.Status.from_int, Ne.symm h17, Ne.symm h27, Ne.symm h37,
      Ne.symm h47, Ne.symm h57, Ne.symm h67]
  · simp [RiotC.Status.from_int, Ne.symm h18, Ne.symm h28, Ne.symm h38,
      Ne.symm h48, Ne.symm h58, Ne.symm h68, Ne.symm h78]
  · simp [RiotC.Status.from_int, Ne.symm h19, Ne.symm h29, Ne.symm h39,
      Ne.symm h49, Ne.symm h59, Ne.symm h69, Ne.symm h79, Ne.symm h89]
  · simp [RiotC.Status.from_int, Ne.symm h1A, Ne.symm h2A, Ne.symm h3A,
      Ne.symm h4A, Ne.symm h5A, Ne.symm h6A, Ne.symm h7A, Ne.symm h8A,
      Ne.symm h9A]
  · simp [RiotC.Status.from_int, Ne.symm h1B, Ne.symm h2B, Ne.symm h3B,
      Ne.symm h4B, Ne.symm h5B, Ne.symm h6B, Ne.symm h7B, Ne.symm h8B,
      Ne.symm h9B, Ne.symm hAB]
  · intro s hs
    simp only [RiotC.StatusCodes.recognized, List.mem_cons,
      List.not_mem_nil, or_false, not_or] at hs
    obtain ⟨n1, n2, n3, n4, n5, n6, n7, n8, n9, nA, nB⟩ := hs
    simp [RiotC.Status.from_int, n1, n2, n3, n4, n5, n6, n7, n8, n9, nA, nB]

/-- C2 witness: with the concrete code table `c₀` (distinct codes) and
the kernel fixture `k₀`, the sentinel raw code of pid 5 surfaces as
`NoSuchThread`, the unrecognized raw code 99 of pid 3 decodes to
`Ok(Other)`, and the recognized raw code 9 decodes to `Running`. -/
theorem C2_status_sentinel_and_decode_witness :
    RiotC.StatusCodes.distinct c₀
    ∧ RiotC.KernelPID.status c₀ k₀ (RiotC.KernelPID.mk 5)
        = Except.error NoSuchThread.NoSuchThread
    ∧ RiotC.KernelPID.status c₀ k₀ (RiotC.KernelPID.mk 3)
        = Except.ok RiotC.Status.Other
    ∧ RiotC.Status.from_int c₀ 9 = RiotC.Status.Running := by
  have H5 := C2_status_sentinel_and_decode c₀ k₀ (RiotC.KernelPID.mk 5)
    (by decide)
  have H3 := C2_status_sentinel_and_decode c₀ k₀ (RiotC.KernelPID.mk 3)
    (by decide)
  refine ⟨by decide, H5.1.mpr (by decide), ?_, ?_⟩
  · have hglue := H3.2.1 (by decide)
    have hother := H3.2.2.2.2.2.2.2.2.2.2.2.2.2 99 (by decide)
    exact hglue.trans (congrArg Except.ok hother)
  · exact H3.2.2.2.2.2.2.2.2.2.2.2.1

/-- C4: with the build-time `riot_develhelp` flag unset, `stack_stats`
returns `InformationUnavailable` for every identifier that denotes a live
thread, and `NoSuchThread` when the identifier denotes no live thread —
the not-found check of `self.thread()?` is decided before the capability
check, so `NoSuchThread` takes precedence when both conditions apply. -/
theorem C4_stack_stats_develhelp_precedence (k : RiotC.Kernel)
    (p : RiotC.KernelPID) :
    ((k.thread_get_unchecked p.pid).isSome = true →
        RiotC.KernelPID.stack_stats false k p
          = Except.error StackStatsError.InformationUnavailable)
    ∧ (k.thread_get_unchecked p.pid = none →
        RiotC.KernelPID.stack_stats false k p
          = Except.error StackStatsError.NoSuchThread) := by
  constructor
  · intro hq
    rcases hopt : k.thread_get_unchecked p.pid with _ | t
    · rw [hopt] at hq
      simp at hq
    · simp [RiotC.KernelPID.stack_stats, RiotC.KernelPID.thread, hopt]
  · intro hq
    simp [RiotC.KernelPID.stack_stats, RiotC.KernelPID.thread, hq]

/-- C4 witness: in the `k₀` fixture with the flag unset, the live pid 2
reports `InformationUnavailable` and the dead pid 5 reports
`NoSuchThread`. -/
theorem C4_stack_stats_develhelp_precedence_witness :
    RiotC.KernelPID.stack_stats false k₀ (RiotC.KernelPID.mk 2)
        = Except.error StackStatsError.InformationUnavailable
    ∧ RiotC.KernelPID.stack_stats false k₀ (RiotC.KernelPID.mk 5)
        = Except.error StackStatsError.NoSuchThread :=
  ⟨(C4_stack_stats_develhelp_precedence k₀ (RiotC.KernelPID.mk 2)).1
      (by decide),
   (C4_stack_stats_develhelp_precedence k₀ (RiotC.KernelPID.mk 5)).2
      (by decide)⟩

/-- C6: every `KernelPID` produced by one of the operations yielding one
(`new`, `all_pids`, `get_pid`) has its numeric payload within
`[PID_FIRST, PID_LAST]` at construction; for `get_pid` this holds under
the kernel guarantee that the calling thread's pid is valid at the
instant of the call, and `new` then succeeds on `get_pid`'s payload. -/
theorem C6_payload_invariant (env : RiotC.PidRange) (k : RiotC.Kernel)
    (h : RiotC.pid_is_valid env k.thread_getpid = true) :
    (∀ (r : Int) (q : RiotC.KernelPID), RiotC.KernelPID.new env r = some q →
        q.pid = r ∧ env.first ≤ q.pid ∧ q.pid ≤ env.last)
    ∧ ((RiotC.KernelPID.all_pids env).all
        (fun q => RiotC.pid_is_valid env q.pid) = true)
    ∧ env.first ≤ (RiotC.get_pid k).pid
    ∧ (RiotC.get_pid k).pid ≤ env.last
    ∧ RiotC.KernelPID.new env ((RiotC.get_pid k).pid)
        = some (RiotC.get_pid k) := by
  have hbounds := (RiotC.pid_is_valid_iff env k.thread_getpid).mp h
  refine ⟨?_, ?_, hbounds.1, hbounds.2, ?_⟩
  · intro r q hq
    unfold RiotC.KernelPID.new at hq
    split at hq
    · next hv =>
        cases hq
        exact ⟨rfl, (RiotC.pid_is_valid_iff env r).mp hv⟩
    · exact absurd hq (by simp)
  · rw [List.all_eq_true]
    intro q hq
    exact (RiotC.pid_is_valid_iff env q.pid).mpr
      ((RiotC.mem_all_pids env q).mp hq)
  · exact (RiotC.new_eq_some_iff env k.thread_getpid).mpr h

/-- C6 witness: with range `[1, 4]` and the `k₀` fixture (current pid 2),
the kernel guarantee holds and `new` succeeds on `get_pid`'s payload. -/
theorem C6_payload_invariant_witness :
    RiotC.pid_is_valid ⟨1, 4⟩ k₀.thread_getpid = true
    ∧ RiotC.KernelPID.new ⟨1, 4⟩ ((RiotC.get_pid k₀).pid)
        = some (RiotC.get_pid k₀) :=
  ⟨by decide, (C6_payload_invariant ⟨1, 4⟩ k₀ (by decide)).2.2.2.2⟩

/-- C7: `wakeup` returns `Ok(())` exactly when the kernel's wakeup
primitive reports raw result 1; under the kernel contract that the
primitive reports 1 exactly on live identifiers, `wakeup` returns
`Err(NoSuchThread)` iff the identifier denotes no live thread, and in
particular succeeds on a sleeping (hence live) identifier. -/
theorem C7_wakeup_ok_iff_raw_one (k : RiotC.Kernel) (p : RiotC.KernelPID)
    (live : Int → Bool) (sleeping : Int → Bool)
    (hw : ∀ q : Int, k.thread_wakeup q = 1 ↔ live q = true)
    (hs : ∀ q : Int, sleeping q = true → live q = true) :
    (RiotC.KernelPID.wakeup k p = Except.ok ()
        ↔ k.thread_wakeup p.pid = 1)
    ∧ (RiotC.KernelPID.wakeup k p
        = Except.error NoSuchThread.NoSuchThread ↔ live p.pid = false)
    ∧ (sleeping p.pid = true →
        RiotC.KernelPID.wakeup k p = Except.ok ()) := by
  refine ⟨?_, ?_, ?_⟩
  · by_cases h1 : k.thread_wakeup p.pid = 1 <;>
      simp [RiotC.KernelPID.wakeup, h1]
  · by_cases h1 : k.thread_wakeup p.pid = 1
    · simp [RiotC.KernelPID.wakeup, h1, (hw p.pid).mp h1]
    · have hl : live p.pid = false := by
        rcases Bool.eq_false_or_eq_true (live p.pid) with ht | hf
        · exact absurd ((hw p.pid).mpr ht) h1
        · exact hf
      simp [RiotC.KernelPID.wakeup, h1, hl]
  · intro hsl
    have h1 : k.thread_wakeup p.pid = 1 := (hw p.pid).mpr (hs p.pid hsl)
    simp [RiotC.KernelPID.wakeup, h1]

/-- C7 witness: in the `k₀` fixture (live pids 1..3, pid 2 sleeping, the
wakeup primitive reporting 1 exactly on live pids), `wakeup` succeeds on
the sleeping pid 2 and reports `NoSuchThread` on the dead pid 5. -/
theorem C7_wakeup_ok_iff_raw_one_witness :
    sleeping₀ 2 = true
    ∧ RiotC.KernelPID.wakeup k₀ (RiotC.KernelPID.mk 2) = Except.ok ()
    ∧ RiotC.KernelPID.wakeup k₀ (RiotC.KernelPID.mk 5)
        = Except.error NoSuchThread.NoSuchThread := by
  have hw : ∀ q : Int, k₀.thread_wakeup q = 1 ↔ live₀ q = true := by
    intro q
    by_cases h : 1 ≤ q ∧ q ≤ 3 <;> simp [k₀, live₀, h]
  have hs : ∀ q : Int, sleeping₀ q = true → live₀ q = true := by
    intro q hq
    simp [sleeping₀] at hq
    simp [live₀, hq]
  refine ⟨by decide, ?_, ?_⟩
  · exact (C7_wakeup_ok_iff_raw_one k₀ (RiotC.KernelPID.mk 2)
      live₀ sleeping₀ hw hs).2.2 (by decide)
  · exact (C7_wakeup_ok_iff_raw_one k₀ (RiotC.KernelPID.mk 5)
      live₀ sleeping₀ hw hs).2.1.mpr (by decide)

/-- C9: two `KernelPID` values (in either backend) are equal iff their
numeric payloads are equal — the derived equality depends on nothing but
the payload, in particular not on any kernel state or liveness. -/
theorem C9_eq_iff_payload_eq (a b : RiotC.KernelPID)
    (a' b' : RiotRs.KernelPID) :
    (a = b ↔ a.pid = b.pid)
    ∧ (a' = b' ↔ a'.pid = b'.pid)
    ∧ (decide (a = b) = decide (a.pid = b.pid)) := by
  refine ⟨?_, ?_, ?_⟩
  · cases a
    cases b
    simp
  · cases a'
    cases b'
    simp
  · rw [decide_eq_decide]
    cases a
    cases b
    simp

/-- C5 counterexample: the two backends do not expose identical contracts.
On one and the same scenario — identifier 2 valid and live in both
backends, the develhelp flag unset — riot_c's `stack_stats` reports
`InformationUnavailable` while riot_rs's returns `Ok` (riot_rs has no
develhelp gate at all); and riot_rs's `status` on an invalid identifier
returns `Err(())` — its error type is the unit type, not `NoSuchThread`
(riot_rs moreover defines no `wakeup` or `priority` operation at all). -/
theorem C5_counterexample_backend_divergence :
    RiotC.KernelPID.stack_stats false k₀ (RiotC.KernelPID.mk 2)
        = Except.error StackStatsError.InformationUnavailable
    ∧ RiotRs.KernelPID.stack_stats rk₀ (RiotRs.KernelPID.mk 2)
        = Except.ok (StackStats.mk 100 256 128)
    ∧ RiotRs.KernelPID.status rk₀ (RiotRs.KernelPID.mk 9)
        = Except.error () := by
  refine ⟨rfl, rfl, rfl⟩

/-- C5 amended: the surviving shared contract between the backends.  Both
provide `new` with the same signature, succeeding exactly on the
backend's own validity gate; but the backends diverge beyond that:
riot_rs's `status` either succeeds with the raw status or fails with the
unit error `()` (not `NoSuchThread`), and riot_rs's `stack_stats` never
reports `InformationUnavailable` (it either succeeds or reports
`NoSuchThread`), while riot_rs defines no `wakeup` or `priority`. -/
theorem C5_amended_shared_validator_contract (env : RiotC.PidRange)
    (rk : RiotRs.RsKernel) (r : Int) (p : RiotRs.KernelPID) :
    ((RiotC.KernelPID.new env r).isSome = RiotC.pid_is_valid env r)
    ∧ ((RiotRs.KernelPID.new rk r).isSome = rk.pid_is_valid r)
    ∧ ((∃ st : StackStats, RiotRs.KernelPID.stack_stats rk p = Except.ok st)
        ∨ RiotRs.KernelPID.stack_stats rk p
            = Except.error StackStatsError.NoSuchThread)
    ∧ (RiotRs.KernelPID.status rk p = Except.ok (rk.get_status p.pid)
        ∨ RiotRs.KernelPID.status rk p = Except.error ()) := by
  refine ⟨RiotC.new_isSome env r, ?_, ?_, ?_⟩
  · unfold RiotRs.KernelPID.new
    split <;> simp_all
  · unfold RiotRs.KernelPID.stack_stats RiotRs.KernelPID.thread
    by_cases hv : rk.pid_is_valid p.pid = true
    · exact Or.inl ⟨StackStats.mk (rk.stack_bottom p.pid) (rk.stack_size p.pid)
        (rk.thread_measure_stack_free (rk.stack_bottom p.pid)), by simp [hv]⟩
    · simp only [Bool.not_eq_true] at hv
      simp [hv]
  · unfold RiotRs.KernelPID.status
    by_cases hv : rk.pid_is_valid p.pid = true
    · exact Or.inl (by simp [hv])
    · simp only [Bool.not_eq_true] at hv
      simp [hv]

/-- C10: `Stdio::write_str` returns `Ok(())` on the empty string without
invoking the `stdio_write` primitive at all (the invocation log is
empty), and on every non-empty string invokes it exactly once on the
whole byte string, returning `Ok(())` iff the primitive's result is
non-negative and `Err` otherwise. -/
theorem C10_write_str_empty_and_signed_result (w : List UInt8 → Int) :
    Stdio.write_str w [] = (Except.ok (), [])
    ∧ ∀ (b : UInt8) (bs : List UInt8),
        (Stdio.write_str w (b :: bs)).2 = [b :: bs]
        ∧ ((Stdio.write_str w (b :: bs)).1 = Except.ok ()
            ↔ 0 ≤ w (b :: bs))
        ∧ ((Stdio.write_str w (b :: bs)).1 = Except.error ()
            ↔ w (b :: bs) < 0) := by
  refine ⟨rfl, fun b bs => ?_⟩
  by_cases h : 0 ≤ w (b :: bs)
  · refine ⟨by simp [Stdio.write_str], ?_, ?_⟩ <;>
      simp [Stdio.write_str, h]
  · refine ⟨by simp [Stdio.write_str], ?_, ?_⟩ <;>
      simp [Stdio.write_str, h] <;> omega
